import Mathlib

/-!
Verification development for the Storj web-core node façade
(src/index.py and src/settings.py) against its design specification.

The façade delegates to a CloudManager core that is not part of the
visible source; definitions for that core are modelled from the spec and
say so in their doc comments.  Everything else is embedded directly from
the Python source.
-/

namespace StorjWebCore

/-! ## Embedding of src/settings.py

The settings module is a flat namespace of attributes.  We record the
names the module defines as shipped (src/settings.py lines 1-16, with no
local_settings override present).  A Python attribute access
settings.NAME either yields a value or raises AttributeError; we embed it
as an Except that carries the missing attribute name on failure. -/

def settingsShipped : List String :=
  ["PROJECT_ROOT", "DATABASE", "STORAGE_PATH", "STORAGE_SIZE",
   "DATACOIN_URL", "DATACOIN_USERNAME", "DATACOIN_PASSWORD",
   "DATACOIN_START", "CLOUDSYNC_WAIT"]

/-- Python attribute lookup on the settings module: returns the attribute
name on success, AttributeError (carrying the missing name) otherwise. -/
def readSetting (attrs : List String) (name : String) : Except String String :=
  if name ∈ attrs then Except.ok name else Except.error name

/-- Embedding of make_cloudmanager (src/index.py lines 26-30): it reads
settings.DATABASE_PATH, settings.STORAGE_PATH and settings.STORAGE_SIZE,
in that order (Python evaluates the arguments left to right before the
constructor call), and constructs the CloudManager handle. -/
def make_cloudmanager (attrs : List String) : Except String Unit := do
  _ ← readSetting attrs "DATABASE_PATH"
  _ ← readSetting attrs "STORAGE_PATH"
  _ ← readSetting attrs "STORAGE_SIZE"
  Except.ok ()

/-- Embedding of get_cloud_manager (src/index.py lines 39-46): the
per-context slot g._cloud_manager is an Option; when it is empty a fresh
manager is constructed via make_cloudmanager and cached. -/
def get_cloud_manager (attrs : List String) (g : Option Unit) :
    Except String (Unit × Option Unit) :=
  match g with
  | some m => Except.ok (m, some m)
  | none => do
      let m ← make_cloudmanager attrs
      Except.ok (m, some m)

/-- The settings attributes the status handler reads directly
(src/index.py lines 154, 155, 162). -/
def statusSettingsReads : List String :=
  ["TRANSFER_MAX_INCOMING", "TRANSFER_MAX_OUTGOING", "STORAGE_FILE"]

/-! ## Teardown (src/index.py lines 56-58)

close_connection(exception) runs get_cloud_manager().close(): it never
tests whether a manager already exists in g; get_cloud_manager constructs
one if the slot is empty.  We record the observable steps as events. -/

inductive TeardownEvent
  | constructManager
  | closeManager
deriving DecidableEq, Repr

/-- Embedding of close_connection (src/index.py lines 56-58): it calls
get_cloud_manager() unconditionally — constructing a fresh manager when g
holds none — and then calls close() on the result. -/
def close_connection (attrs : List String) (g : Option Unit) :
    Except String (List TeardownEvent) :=
  match g with
  | some _ => Except.ok [TeardownEvent.closeManager]
  | none => do
      _ ← make_cloudmanager attrs
      Except.ok [TeardownEvent.constructManager, TeardownEvent.closeManager]

/-! ## Upload handler response (src/index.py lines 76-88)

After encrypting and calling CloudManager.upload, the handler branches on
the Python truthiness of the result: a falsy result (None, or an empty
string) yields a 500 with error 'Upload failed', a truthy result yields a
201 carrying the file hash and the derived key. -/

inductive UploadResponse
  | created (filehash : String) (key : String)
  | serverError (msg : String)
deriving DecidableEq, Repr

/-- Python truthiness of the upload result (None or a string). -/
def pyTruthyStr : Option String → Bool
  | none => false
  | some s => !s.isEmpty

/-- Embedding of the response branch of upload (src/index.py lines
80-83): `if not result` gives the 500 error; otherwise a 201 with
filehash=result and the derived key. -/
def upload_response (result : Option String) (key : String) : UploadResponse :=
  match result with
  | none => UploadResponse.serverError "Upload failed"
  | some s =>
      if s.isEmpty then UploadResponse.serverError "Upload failed"
      else UploadResponse.created s key

/-! ## CloudManager core (modelled from the spec)

The cloudmanager package imported at src/index.py line 18 is not part of
the visible source; only the façade's calls to it are.  The core model
below follows the spec (§3 data model, §4.4 UploadCoordinator, §4.5
DownloadWarmer, §6 exposed operations).  File contents are byte lists; a
local path is identified with the content of the file it names, since
the model reads files directly. -/

abbrev Bytes := List Nat

abbrev Hash := List Nat

/-- Association lookup by hash (first match wins, as an upsert that
prepends makes the newest record authoritative). -/
def assocFind {α : Type} (h : Hash) : List (Hash × α) → Option α
  | [] => none
  | (k, v) :: rest => if k = h then some v else assocFind h rest

/-- Modelled from the spec: the durable CloudManager state visible to the
claims — the FileIndex (one FileRecord per hash, here its size) and the
union of content held by remote providers, keyed by hash.  The
cloudmanager package holding the real implementation is not under src/. -/
structure CMState where
  index : List (Hash × Nat)
  remote : List (Hash × Bytes)
deriving DecidableEq, Repr

inductive UploadOutcome
  | Stored
  | Failed
deriving DecidableEq, Repr

structure UploadResult where
  hash : Hash
  outcome : UploadOutcome
  state : CMState
deriving DecidableEq, Repr

/-- Modelled from the spec: CloudManager.upload / UploadCoordinator
(§4.4), absent from src/.  The hash is computed from the staged content
before any network I/O; one attempt per configured provider is made and
providerResults records which providers reached stored; the call returns
Stored as soon as at least one provider stored the content (the content
then exists remotely), Failed when all providers failed.  A FileRecord is
upserted either way (providerStatus is never empty once upload begins). -/
def cmUpload (hashFn : Bytes → Hash) (providerResults : List Bool)
    (content : Bytes) (s : CMState) : UploadResult :=
  let h := hashFn content
  { hash := h
    outcome := if providerResults.any id then UploadOutcome.Stored
               else UploadOutcome.Failed
    state :=
      { index := (h, content.length) :: s.index
        remote := if providerResults.any id then (h, content) :: s.remote
                  else s.remote } }

inductive WarmUpResult
  | notFound
  | fetchFailed
  | ok (content : Bytes)
deriving DecidableEq, Repr

/-- Modelled from the spec: CloudManager.warm_up / DownloadWarmer (§4.5),
absent from src/.  It looks up the FileIndex; with no record it returns
NotFound immediately with zero network calls; with a record it fetches
the content from the providers (one network call when a provider holds
it), returning FetchFailed when no known provider can supply the bytes.
The second component counts network calls performed. -/
def cmWarmUp (h : Hash) (s : CMState) : WarmUpResult × Nat :=
  match assocFind h s.index with
  | none => (WarmUpResult.notFound, 0)
  | some _ =>
      match assocFind h s.remote with
      | none => (WarmUpResult.fetchFailed, 1)
      | some c => (WarmUpResult.ok c, 1)

/-- The value of warm_up as the façade receives it: the handler
(src/index.py lines 108-115) compares the result with None and otherwise
passes it to send_file / os.path.basename, so across the boundary
warm_up is a path-or-None — both notFound and fetchFailed cross as
None. -/
def warmUpPy (h : Hash) (s : CMState) : Option Bytes :=
  match (cmWarmUp h s).1 with
  | WarmUpResult.ok c => some c
  | _ => none

/-! ## Download handler (src/index.py lines 94-121)

The handler takes the warm_up result (path-or-None) and the optional
key query parameter.  A None path gives a 404 with error 'File not
found'; with a path and no key it serves the file as stored via
send_file; with a key it streams decrypt_generator(full_path, key).
decrypt_generator is an external collaborator (a finite, single-pass
producer of byte chunks) and is passed in as a function from stored
content and key to the chunk list. -/

inductive DownloadResponse
  | notFound404 (msg : String)
  | sendRaw (content : Bytes)
  | streamDecrypted (chunks : List Bytes)
deriving DecidableEq, Repr

/-- Embedding of download (src/index.py lines 104-121) after the
warm_up call: branch on full_path being None, then on the key query
parameter. -/
def download (decGen : Bytes → String → List Bytes) (key : Option String)
    (fullPath : Option Bytes) : DownloadResponse :=
  match fullPath with
  | none => DownloadResponse.notFound404 "File not found"
  | some content =>
      match key with
      | none => DownloadResponse.sendRaw content
      | some k => DownloadResponse.streamDecrypted (decGen content k)

/-! ## Upload handler control flow (src/index.py lines 62-91)

The handler saves the posted file to a temp path, encrypts it in place
with encrypt_file_inline(temp_name, None) — deriving the key from the
content since None is passed — then calls CloudManager.upload on the
temp path, and finally removes the temp file.  We record the steps as an
event trace; the encryption primitive is an external collaborator and is
passed in as the in-place content transformation encFn. -/

inductive UpEvent
  | saveTemp (content : Bytes)
  | encryptInline (content : Bytes) (keyArg : Option String)
  | networkUpload (content : Bytes)
  | removeTemp
deriving DecidableEq, Repr

/-- An event that performs network I/O: only the CloudManager.upload
call does (saving, in-place encryption and temp-file removal are
local). -/
def isNetworkEvent : UpEvent → Bool
  | UpEvent.networkUpload _ => true
  | _ => false

/-- Embedding of the upload handler's step sequence (src/index.py lines
70-91) on a request whose posted file holds content c: save to the temp
path, encrypt in place with key argument None, upload the (now
encrypted) temp file, remove it. -/
def upload_handler_trace (encFn : Bytes → Bytes) (c : Bytes) : List UpEvent :=
  [UpEvent.saveTemp c,
   UpEvent.encryptInline c none,
   UpEvent.networkUpload (encFn c),
   UpEvent.removeTemp]

/-! ## ContentStore (modelled from the spec)

The ContentStore is part of the CloudManager core, not under src/; it is
modelled from spec §4.1: a capacity-bounded local cache whose put evicts
least-recently-accessed entries first, skipping entries not yet stored
on any remote provider, and fails with CapacityExceeded when no
evictable victim remains and the addition would still exceed capacity. -/

structure Entry where
  hash : Hash
  size : Nat
  lastAccess : Nat
  remoteStored : Bool
deriving DecidableEq, Repr

structure ContentStore where
  capacity : Nat
  entries : List Entry
deriving DecidableEq, Repr

/-- Modelled from the spec: bytes used by the local cache. -/
def usedSpace (s : ContentStore) : Nat :=
  (s.entries.map Entry.size).sum

/-- An entry may be evicted only when at least one remote provider has
confirmed it stored (never evict data that exists nowhere else yet). -/
def evictableEntry (e : Entry) : Bool := e.remoteStored

/-- The least-recently-accessed evictable entry, if any. -/
def lruVictim (es : List Entry) : Option Entry :=
  (es.filter evictableEntry).foldl
    (fun acc e =>
      match acc with
      | none => some e
      | some b => if e.lastAccess < b.lastAccess then some e else some b)
    none

/-- Remove the first entry with the given hash. -/
def removeEntry (h : Hash) : List Entry → List Entry
  | [] => []
  | e :: rest => if e.hash = h then rest else e :: removeEntry h rest

/-- Modelled from the spec: evict LRU-first evictable entries while the
incoming addition would exceed capacity; stop when it fits or when no
evictable victim remains.  Fuel bounds the recursion by the number of
entries. -/
def evictLoop : Nat → Nat → ContentStore → ContentStore
  | 0, _, s => s
  | fuel + 1, incoming, s =>
      if usedSpace s + incoming ≤ s.capacity then s
      else
        match lruVictim s.entries with
        | none => s
        | some v =>
            evictLoop fuel incoming
              { s with entries := removeEntry v.hash s.entries }

/-- Modelled from the spec: ContentStore.evictIfNeeded(incomingSize). -/
def evictIfNeeded (incoming : Nat) (s : ContentStore) : ContentStore :=
  evictLoop s.entries.length incoming s

/-- Modelled from the spec: ContentStore.put — eviction is triggered
before the write whenever the addition would exceed capacity; the write
happens only if the entry then fits, otherwise put fails with
CapacityExceeded and nothing is written. -/
def putEntry (e : Entry) (s : ContentStore) : ContentStore × Option String :=
  if usedSpace (evictIfNeeded e.size s) + e.size ≤ (evictIfNeeded e.size s).capacity then
    ({ evictIfNeeded e.size s with entries := e :: (evictIfNeeded e.size s).entries }, none)
  else
    (evictIfNeeded e.size s, some "CapacityExceeded")

inductive StoreOp
  | opPut (e : Entry)
  | opEvict (incoming : Nat)
deriving DecidableEq, Repr

/-- Run a sequence of put / evictIfNeeded calls; a failed put leaves the
(possibly evicted) state it reached. -/
def runStoreOps : List StoreOp → ContentStore → ContentStore
  | [], s => s
  | StoreOp.opPut e :: rest, s => runStoreOps rest (putEntry e s).1
  | StoreOp.opEvict n :: rest, s => runStoreOps rest (evictIfNeeded n s)

/-- A trivial decrypt_generator collaborator, used for concrete
evaluations. -/
def dgZero : Bytes → String → List Bytes := fun _ _ => []

/-- A decrypt_generator collaborator that yields the stored content as a
single chunk, used for concrete evaluations. -/
def dgWhole : Bytes → String → List Bytes := fun b _ => [b]

/-- A concrete in-place encryption collaborator that changes the bytes
(so ciphertext and plaintext are distinguishable), used for concrete
evaluations. -/
def encPlusOne : Bytes → Bytes := fun bs => bs.map (fun b => b + 1)

/-! ## Theorems -/

/-- Claim C3: with the settings module as shipped and no local_settings
override, constructing the CloudManager fails: make_cloudmanager's first
read, settings.DATABASE_PATH, raises AttributeError (the module defines
only DATABASE), so get_cloud_manager on a fresh context errors before
yielding a manager; likewise the status handler's direct settings reads
TRANSFER_MAX_INCOMING, TRANSFER_MAX_OUTGOING and STORAGE_FILE all raise,
so every handler that constructs the CloudManager fails before producing
a response. -/
theorem settings_attribute_lookups_fail :
    get_cloud_manager settingsShipped none = Except.error "DATABASE_PATH"
    ∧ make_cloudmanager settingsShipped = Except.error "DATABASE_PATH"
    ∧ readSetting settingsShipped "TRANSFER_MAX_INCOMING"
        = Except.error "TRANSFER_MAX_INCOMING"
    ∧ readSetting settingsShipped "TRANSFER_MAX_OUTGOING"
        = Except.error "TRANSFER_MAX_OUTGOING"
    ∧ readSetting settingsShipped "STORAGE_FILE" = Except.error "STORAGE_FILE" :=
  ⟨rfl, rfl, rfl, rfl, rfl⟩

/-- Claim C4: the upload handler's response distinguishes success from
failure on the Python truthiness of CloudManager.upload's result: a
truthy result yields a 201 carrying the file hash and the derived key, a
falsy result yields a 500 with error 'Upload failed'. -/
theorem upload_response_branches (result : Option String) (key : String) :
    (pyTruthyStr result = true →
      ∃ s, result = some s ∧ upload_response result key = UploadResponse.created s key)
    ∧ (pyTruthyStr result = false →
      upload_response result key = UploadResponse.serverError "Upload failed") := by
  constructor
  · intro ht
    match result with
    | none => simp [pyTruthyStr] at ht
    | some s =>
        refine ⟨s, rfl, ?_⟩
        simp only [pyTruthyStr, Bool.not_eq_true'] at ht
        simp [upload_response, ht]
  · intro hf
    match result with
    | none => rfl
    | some s =>
        simp only [pyTruthyStr] at hf
        have hemp : s.isEmpty = true := by
          cases hval : s.isEmpty
          · rw [hval] at hf
            exact absurd hf (by decide)
          · rfl
        simp [upload_response, hemp]

/-- Witness for upload_response_branches at a nonempty hash and at the
falsy result None. -/
theorem upload_response_branches_witness :
    upload_response (some "abc123") "k" = UploadResponse.created "abc123" "k"
    ∧ upload_response none "k" = UploadResponse.serverError "Upload failed" := by
  constructor
  · obtain ⟨s, hs, h⟩ := (upload_response_branches (some "abc123") "k").1 (by decide)
    injection hs with hh
    subst hh
    exact h
  · exact (upload_response_branches none "k").2 (by decide)

/-- Claim C10: at application-context teardown, close_connection calls
get_cloud_manager() unconditionally, so on a context in which no handler
created a CloudManager (g holds none) a fresh manager is constructed at
teardown solely so that close() can be called on it — teardown never
finds the manager missing and skips the close.  (Construction succeeds
whenever the settings reads do, e.g. under a local_settings override.) -/
theorem teardown_constructs_fresh_manager (attrs : List String)
    (h : make_cloudmanager attrs = Except.ok ()) :
    close_connection attrs none
      = Except.ok [TeardownEvent.constructManager, TeardownEvent.closeManager] := by
  have hstep : close_connection attrs none
      = Except.bind (make_cloudmanager attrs)
          (fun _ =>
            Except.ok [TeardownEvent.constructManager, TeardownEvent.closeManager]) := rfl
  rw [hstep, h]
  rfl

/-- Witness for teardown_constructs_fresh_manager under settings extended
with the DATABASE_PATH attribute make_cloudmanager needs. -/
theorem teardown_constructs_fresh_manager_witness :
    make_cloudmanager ("DATABASE_PATH" :: settingsShipped) = Except.ok ()
    ∧ close_connection ("DATABASE_PATH" :: settingsShipped) none
      = Except.ok [TeardownEvent.constructManager, TeardownEvent.closeManager] :=
  ⟨rfl, teardown_constructs_fresh_manager ("DATABASE_PATH" :: settingsShipped) rfl⟩

/-- Claim C2: round-trip — for every upload that returns Stored, warming
up the returned hash on the resulting state yields content byte-identical
to the content that was uploaded. -/
theorem upload_warmup_roundtrip (hashFn : Bytes → Hash)
    (providerResults : List Bool) (content : Bytes) (s : CMState)
    (hst : (cmUpload hashFn providerResults content s).outcome = UploadOutcome.Stored) :
    (cmWarmUp (cmUpload hashFn providerResults content s).hash
        (cmUpload hashFn providerResults content s).state).1
      = WarmUpResult.ok content := by
  by_cases hp : providerResults.any id = true
  · simp [cmUpload, cmWarmUp, assocFind, hp]
  · exfalso
    simp [cmUpload, hp] at hst

/-- Witness for upload_warmup_roundtrip at a one-provider successful
upload of the bytes [1, 2] starting from the empty state. -/
theorem upload_warmup_roundtrip_witness :
    (cmUpload id [true] [1, 2] ⟨[], []⟩).outcome = UploadOutcome.Stored
    ∧ (cmWarmUp (cmUpload id [true] [1, 2] ⟨[], []⟩).hash
        (cmUpload id [true] [1, 2] ⟨[], []⟩).state).1 = WarmUpResult.ok [1, 2] :=
  ⟨rfl, upload_warmup_roundtrip id [true] [1, 2] ⟨[], []⟩ rfl⟩

/-- Claim C6: for a hash with no FileIndex record, warm_up returns
NotFound immediately with zero network calls, and the download route
answers 404 with error 'File not found'. -/
theorem warmup_unknown_hash (h : Hash) (s : CMState)
    (hnone : assocFind h s.index = none)
    (decGen : Bytes → String → List Bytes) (key : Option String) :
    cmWarmUp h s = (WarmUpResult.notFound, 0)
    ∧ download decGen key (warmUpPy h s)
        = DownloadResponse.notFound404 "File not found" := by
  have hw : cmWarmUp h s = (WarmUpResult.notFound, 0) := by
    unfold cmWarmUp
    rw [hnone]
  refine ⟨hw, ?_⟩
  unfold warmUpPy
  rw [hw]
  rfl

/-- Witness for warmup_unknown_hash at the hash [0] on the empty state. -/
theorem warmup_unknown_hash_witness :
    cmWarmUp [0] ⟨[], []⟩ = (WarmUpResult.notFound, 0)
    ∧ download dgZero none (warmUpPy [0] ⟨[], []⟩)
        = DownloadResponse.notFound404 "File not found" :=
  warmup_unknown_hash [0] ⟨[], []⟩ rfl dgZero none

/-- Claim C5, counterexample: warm_up distinguishes notFound from
fetchFailed internally, but the façade receives only a path-or-None, so
a hash that never existed (empty state) and a hash whose record exists
while no provider holds the bytes produce the very same 404 'File not
found' response — refuting that the two cases must not produce the same
response. -/
theorem warmup_fetchfailed_same_response :
    (cmWarmUp [7] { index := [], remote := [] }).1 = WarmUpResult.notFound
    ∧ (cmWarmUp [7] { index := [([7], 3)], remote := [] }).1 = WarmUpResult.fetchFailed
    ∧ download dgZero none (warmUpPy [7] { index := [], remote := [] })
        = download dgZero none (warmUpPy [7] { index := [([7], 3)], remote := [] })
    ∧ download dgZero none (warmUpPy [7] { index := [([7], 3)], remote := [] })
        = DownloadResponse.notFound404 "File not found" := by
  refine ⟨rfl, ?_, ?_, ?_⟩ <;> rfl

/-- Claim C5, amended: whenever warm_up ends in notFound or in
fetchFailed, the value crossing the Python boundary is None and the
download route returns the same 404 'File not found' response — the
caller cannot distinguish 'never existed' from 'exists but
unreachable'. -/
theorem warmup_failure_collapses_to_404 (h : Hash) (s : CMState)
    (decGen : Bytes → String → List Bytes) (key : Option String)
    (hfail : (cmWarmUp h s).1 = WarmUpResult.notFound
      ∨ (cmWarmUp h s).1 = WarmUpResult.fetchFailed) :
    download decGen key (warmUpPy h s)
      = DownloadResponse.notFound404 "File not found" := by
  unfold warmUpPy
  rcases hfail with hf | hf <;> rw [hf] <;> rfl

/-- Witness for warmup_failure_collapses_to_404 at the hash [7] on the
empty state. -/
theorem warmup_failure_collapses_to_404_witness :
    download dgZero none (warmUpPy [7] ⟨[], []⟩)
      = DownloadResponse.notFound404 "File not found" :=
  warmup_failure_collapses_to_404 [7] ⟨[], []⟩ dgZero none (Or.inl rfl)

/-- Claim C1, counterexample: a request whose hash resolves to a locally
available file but that carries no key query parameter is answered by
send_file with the stored bytes as-is.  Concretely, uploading plaintext
[0] stages the encrypted artifact [1] (the network upload carries [1]),
and the keyless download of that artifact responds sendRaw [1] — the
still-encrypted artifact, not the plaintext [0], and not a decrypted
stream — refuting that every such request is served decrypted. -/
theorem download_keyless_serves_encrypted :
    upload_handler_trace encPlusOne [0]
      = [UpEvent.saveTemp [0], UpEvent.encryptInline [0] none,
         UpEvent.networkUpload [1], UpEvent.removeTemp]
    ∧ download dgZero none (some (encPlusOne [0])) = DownloadResponse.sendRaw [1]
    ∧ encPlusOne [0] ≠ [0]
    ∧ ¬ ∃ chunks, download dgZero none (some (encPlusOne [0]))
        = DownloadResponse.streamDecrypted chunks := by
  refine ⟨rfl, rfl, by decide, ?_⟩
  rintro ⟨chunks, hc⟩
  exact DownloadResponse.noConfusion hc

/-- Claim C1, amended: only when the request supplies the key query
parameter does the handler decrypt on the fly, responding with the
finite, single-pass chunk stream of decrypt_generator — whose
concatenation is the original plaintext under the collaborator contract
that decryption with the content-derived key inverts the in-place
encryption; when no key is supplied the handler serves the stored
(encrypted) artifact unchanged via send_file. -/
theorem download_with_key_streams_decryption
    (decGen : Bytes → String → List Bytes) (encFn : Bytes → Bytes)
    (deriveKey : Bytes → String) (c : Bytes)
    (hcontract : (decGen (encFn c) (deriveKey c)).flatten = c) :
    download decGen (some (deriveKey c)) (some (encFn c))
      = DownloadResponse.streamDecrypted (decGen (encFn c) (deriveKey c))
    ∧ (decGen (encFn c) (deriveKey c)).flatten = c
    ∧ download decGen none (some (encFn c)) = DownloadResponse.sendRaw (encFn c) :=
  ⟨rfl, hcontract, rfl⟩

/-- Witness for download_with_key_streams_decryption with identity
encryption, a constant derived key and a one-chunk decrypt generator on
the plaintext [2, 3]. -/
theorem download_with_key_streams_decryption_witness :
    download dgWhole (some "k") (some ([2, 3] : Bytes))
      = DownloadResponse.streamDecrypted [[2, 3]]
    ∧ (dgWhole (id [2, 3]) "k").flatten = [2, 3]
    ∧ download dgWhole none (some ([2, 3] : Bytes)) = DownloadResponse.sendRaw [2, 3] :=
  download_with_key_streams_decryption dgWhole id (fun _ => "k") [2, 3] rfl

/-- Claim C7: in the upload handler's step sequence the staged file is
encrypted in place — with key argument None, so the key is derived from
the content — strictly before any network I/O (the encrypt event lies in
the network-free prefix of the trace), and the CloudManager.upload call
operates on the encrypted bytes. -/
theorem encrypt_before_network (encFn : Bytes → Bytes) (c : Bytes) :
    UpEvent.encryptInline c none
      ∈ (upload_handler_trace encFn c).takeWhile (fun e => !isNetworkEvent e)
    ∧ UpEvent.networkUpload (encFn c) ∈ upload_handler_trace encFn c := by
  constructor
  · show UpEvent.encryptInline c none
      ∈ [UpEvent.saveTemp c, UpEvent.encryptInline c none]
    simp
  · simp [upload_handler_trace]

/-- Removing an entry never increases the summed sizes. -/
theorem sum_removeEntry_le (h : Hash) (es : List Entry) :
    ((removeEntry h es).map Entry.size).sum ≤ (es.map Entry.size).sum := by
  induction es with
  | nil => simp [removeEntry]
  | cons e rest ih =>
      by_cases he : e.hash = h
      · simp only [removeEntry, if_pos he, List.map_cons, List.sum_cons]
        omega
      · simp only [removeEntry, if_neg he, List.map_cons, List.sum_cons]
        omega

/-- Eviction only shrinks the used space. -/
theorem usedSpace_evictLoop_le (fuel incoming : Nat) (s : ContentStore) :
    usedSpace (evictLoop fuel incoming s) ≤ usedSpace s := by
  induction fuel generalizing s with
  | zero => exact le_rfl
  | succ n ih =>
      unfold evictLoop
      split
      · exact le_rfl
      · split
        · exact le_rfl
        · exact le_trans (ih _) (sum_removeEntry_le _ _)

/-- Eviction never changes the configured capacity. -/
theorem capacity_evictLoop (fuel incoming : Nat) (s : ContentStore) :
    (evictLoop fuel incoming s).capacity = s.capacity := by
  induction fuel generalizing s with
  | zero => rfl
  | succ n ih =>
      unfold evictLoop
      split
      · rfl
      · split
        · rfl
        · rw [ih]

/-- put preserves the capacity ceiling: from a state within capacity,
the state put leaves behind — after eviction and, when the entry fits,
the write — is within capacity, whether put succeeds or fails with
CapacityExceeded. -/
theorem putEntry_invariant (e : Entry) (s : ContentStore)
    (hs : usedSpace s ≤ s.capacity) :
    usedSpace (putEntry e s).1 ≤ (putEntry e s).1.capacity := by
  have hcap : (evictIfNeeded e.size s).capacity = s.capacity :=
    capacity_evictLoop _ _ _
  have hle : usedSpace (evictIfNeeded e.size s) ≤ usedSpace s :=
    usedSpace_evictLoop_le _ _ _
  unfold putEntry
  split
  next hfit =>
      simp only [usedSpace, List.map_cons, List.sum_cons] at hfit ⊢
      omega
  next hfit =>
      simp only
      omega

/-- Claim C8: after any sequence of put and evictIfNeeded calls starting
from a state within capacity, ContentStore.usedSpace never exceeds
capacity — the configured capacity is a hard ceiling, with put evicting
before the write and refusing the write (CapacityExceeded) when the
addition would still exceed it. -/
theorem runStoreOps_invariant (ops : List StoreOp) (s : ContentStore)
    (hs : usedSpace s ≤ s.capacity) :
    usedSpace (runStoreOps ops s) ≤ (runStoreOps ops s).capacity := by
  induction ops generalizing s with
  | nil => exact hs
  | cons op rest ih =>
      cases op with
      | opPut e => exact ih _ (putEntry_invariant e s hs)
      | opEvict n =>
          apply ih
          have h1 := usedSpace_evictLoop_le s.entries.length n s
          have h2 := capacity_evictLoop s.entries.length n s
          unfold evictIfNeeded
          omega

/-- Witness for runStoreOps_invariant: an empty 10-byte store receives
two 6-byte puts; the second forces eviction of the first (remotely
stored) entry and the ceiling holds throughout. -/
theorem runStoreOps_invariant_witness :
    usedSpace { capacity := 10, entries := [] } ≤ 10
    ∧ usedSpace (runStoreOps
        [StoreOp.opPut { hash := [1], size := 6, lastAccess := 0, remoteStored := true },
         StoreOp.opPut { hash := [2], size := 6, lastAccess := 1, remoteStored := true }]
        { capacity := 10, entries := [] })
      ≤ (runStoreOps
        [StoreOp.opPut { hash := [1], size := 6, lastAccess := 0, remoteStored := true },
         StoreOp.opPut { hash := [2], size := 6, lastAccess := 1, remoteStored := true }]
        { capacity := 10, entries := [] }).capacity :=
  ⟨by decide,
   runStoreOps_invariant
     [StoreOp.opPut { hash := [1], size := 6, lastAccess := 0, remoteStored := true },
      StoreOp.opPut { hash := [2], size := 6, lastAccess := 1, remoteStored := true }]
     { capacity := 10, entries := [] } (by decide)⟩

end StorjWebCore
